import Mathlib

/-!
Shallow embedding of the fund trend analysis engine
(`src/fund_analyzer.py`, class `FundTrendAnalyzer`) and of the fleet
pipeline (`src/core/fund_pipeline.py`, class `FundAnalysisPipeline`).

Numeric NAV values, moving averages and percentages are embedded as
rationals (the Python code compares and combines floats with ordinary
arithmetic; no claim depends on floating-point rounding). The NAV series
is embedded as the date-ascending list of nav values: `analyze` first
sorts its frame by date, so the list stands for the sorted nav column.
Reason / risk strings built with f-string templates are embedded as an
inductive type with one constructor per template, carrying the formatted
numeric arguments; fixed strings are kept verbatim.
-/

namespace FundAnalysis

/-- Python enum `TrendStatus` of `fund_analyzer.py`. -/
inductive TrendStatus
  | STRONG_BULL
  | BULL
  | WEAK_BULL
  | CONSOLIDATION
  | WEAK_BEAR
  | BEAR
  | STRONG_BEAR
deriving DecidableEq, Repr

/-- Python enum `BuySignal` of `fund_analyzer.py`. -/
inductive BuySignal
  | STRONG_BUY
  | BUY
  | HOLD
  | WAIT
  | SELL
  | STRONG_SELL
deriving DecidableEq, Repr

/-- One reason / risk string appended by `_generate_signal`.  Each
constructor stands for one f-string template of the Python code, with the
numeric arguments that the template formats. -/
inductive Reason
  | trendUp (s : TrendStatus)
  | weakBull
  | trendDown (s : TrendStatus)
  | consolidation
  | pullbackBuyZone (p : ℚ)
  | nearSupport
  | chaseHigh (p : ℚ)
  | deviated
  | annualExcellent (r : ℚ)
  | annualGood (r : ℚ)
  | annualNegative (r : ℚ)
  | monthOverheat (r : ℚ)
deriving DecidableEq, Repr

/-- The `entry_timing` advisory text set by `_generate_operation_advice`;
`empty` is the dataclass default `""`. -/
inductive EntryTiming
  | empty
  | buyNowAddOnPullback
  | waitPullbackToMa5 (ma5 : ℚ)
  | holdAndWatch
  | notRecommended
deriving DecidableEq, Repr

/-- The `target_return` advisory text; `empty` is the dataclass default. -/
inductive TargetReturn
  | empty
  | fifteenTo25
  | tenTo15
  | noTarget
deriving DecidableEq, Repr

/-- Dataclass `FundAnalysisResult` of `fund_analyzer.py`.  The
`stop_loss` text is carried as the stop-loss nav it formats (`none` is
the dataclass default `""`). -/
structure FundAnalysisResult where
  code : String
  name : String
  trend_status : TrendStatus
  trend_strength : ℚ
  ma5 : ℚ
  ma10 : ℚ
  ma20 : ℚ
  ma60 : ℚ
  current_nav : ℚ
  pullback_from_ma5 : ℚ
  pullback_from_ma20 : ℚ
  pullback_status : String
  week_1_return : ℚ
  month_1_return : ℚ
  month_3_return : ℚ
  month_6_return : ℚ
  year_1_return : ℚ
  buy_signal : BuySignal
  signal_score : ℤ
  signal_reasons : List Reason
  risk_factors : List Reason
  entry_timing : EntryTiming
  stop_loss : Option ℚ
  target_return : TargetReturn
deriving DecidableEq, Repr

/-- The dataclass defaults of `FundAnalysisResult`: this is the value
`analyze` builds and returns unchanged when the input frame is `None` or
empty. -/
def mkDefaultResult (code name : String) : FundAnalysisResult where
  code := code
  name := name
  trend_status := .CONSOLIDATION
  trend_strength := 0
  ma5 := 0
  ma10 := 0
  ma20 := 0
  ma60 := 0
  current_nav := 0
  pullback_from_ma5 := 0
  pullback_from_ma20 := 0
  pullback_status := ""
  week_1_return := 0
  month_1_return := 0
  month_3_return := 0
  month_6_return := 0
  year_1_return := 0
  buy_signal := .WAIT
  signal_score := 0
  signal_reasons := []
  risk_factors := []
  entry_timing := .empty
  stop_loss := none
  target_return := .empty

/-- Class constant `CHASE_HIGH_THRESHOLD = 10.0`. -/
def CHASE_HIGH_THRESHOLD : ℚ := 10

/-- Class constant `PULLBACK_BUY_THRESHOLD = -3.0`. -/
def PULLBACK_BUY_THRESHOLD : ℚ := -3

/-- Class constant `STRONG_PULLBACK_THRESHOLD = -8.0`. -/
def STRONG_PULLBACK_THRESHOLD : ℚ := -8

/-- Arithmetic mean of a list of rationals (the `.mean()` of one rolling
window). -/
def mean (l : List ℚ) : ℚ := l.sum / l.length

/-- The window that `rolling(window=k, min_periods=1)` aggregates at row
`i`: the at most `k` values ending at index `i`. -/
def windowSlice (k i : ℕ) (navs : List ℚ) : List ℚ :=
  (navs.take (i + 1)).drop (i + 1 - k)

/-- `_calculate_mas` for one window: the full rolling-mean column
`df['nav'].rolling(window=k, min_periods=1).mean()`. -/
def rollingMean (k : ℕ) (navs : List ℚ) : List ℚ :=
  (List.range navs.length).map fun i => mean (windowSlice k i navs)

/-- The last row of a rolling-mean column, as read by `_analyze_trend`
via `df.iloc[-1]` (the default is irrelevant: `analyze` only reaches this
on a non-empty frame). -/
def lastRow (l : List ℚ) : ℚ := (l.getLast?).getD 0

/-- `_analyze_trend`: the ma-alignment if/elif chain, returning the
trend status and strength. -/
def classifyTrend (ma5 ma10 ma20 nav : ℚ) : TrendStatus × ℚ :=
  if ma5 > ma10 ∧ ma10 > ma20 then
    if nav > ma5 then (.STRONG_BULL, 3) else (.BULL, 2)
  else if ma5 > ma10 then (.WEAK_BULL, 1)
  else if ma5 < ma10 ∧ ma10 < ma20 then
    if nav < ma5 then (.STRONG_BEAR, -3) else (.BEAR, -2)
  else if ma5 < ma10 then (.WEAK_BEAR, -1)
  else (.CONSOLIDATION, 0)

/-- The pullback percentage `(current_nav - ma) / ma * 100` of
`_analyze_pullback`, left at the dataclass default `0` when `ma <= 0`. -/
def pullbackPct (nav ma : ℚ) : ℚ :=
  if ma > 0 then (nav - ma) / ma * 100 else 0

/-- The posture if/elif chain of `_analyze_pullback`, a function of
`pullback_from_ma5`. -/
def pullbackStatusOf (p : ℚ) : String :=
  if p > CHASE_HIGH_THRESHOLD then "严重偏离均线，追高风险"
  else if p > 5 then "偏离均线，建议等待回调"
  else if p > 0 then "接近均线，可以关注"
  else if p > PULLBACK_BUY_THRESHOLD then "回调至均线附近，买入时机"
  else "大幅回调，关注支撑"

/-- The mutable accumulator of `_generate_signal`: `score`, `reasons`,
`risks`. -/
structure ScoreState where
  score : ℤ
  reasons : List Reason
  risks : List Reason
deriving DecidableEq, Repr

/-- The accumulator right after `score = 0; reasons = []; risks = []`. -/
def initScore : ScoreState := ⟨0, [], []⟩

/-- Block 1 of `_generate_signal` (trend factor): the if/elif chain on
`result.trend_status`. -/
def trendStep (t : TrendStatus) (s : ScoreState) : ScoreState :=
  if t = .STRONG_BULL ∨ t = .BULL then
    { s with score := s.score + 2, reasons := s.reasons ++ [.trendUp t] }
  else if t = .WEAK_BULL then
    { s with score := s.score + 1, reasons := s.reasons ++ [.weakBull] }
  else if t = .BEAR ∨ t = .STRONG_BEAR then
    { s with score := s.score - 2, risks := s.risks ++ [.trendDown t] }
  else
    { s with reasons := s.reasons ++ [.consolidation] }

/-- Block 2 of `_generate_signal` (pullback factor): the if/elif chain
on `result.pullback_from_ma5`. -/
def pullbackStep (p : ℚ) (s : ScoreState) : ScoreState :=
  if PULLBACK_BUY_THRESHOLD ≤ p ∧ p ≤ 0 then
    { s with score := s.score + 2, reasons := s.reasons ++ [.pullbackBuyZone p] }
  else if 0 < p ∧ p ≤ 3 then
    { s with score := s.score + 1, reasons := s.reasons ++ [.nearSupport] }
  else if p > CHASE_HIGH_THRESHOLD then
    { s with score := s.score - 2, risks := s.risks ++ [.chaseHigh p] }
  else if p > 5 then
    { s with score := s.score - 1, risks := s.risks ++ [.deviated] }
  else s

/-- Block 3 of `_generate_signal` (annual-return factor): the if/elif
chain on `result.year_1_return`. -/
def annualStep (y : ℚ) (s : ScoreState) : ScoreState :=
  if y > 20 then
    { s with score := s.score + 2, reasons := s.reasons ++ [.annualExcellent y] }
  else if y > 10 then
    { s with score := s.score + 1, reasons := s.reasons ++ [.annualGood y] }
  else if y < 0 then
    { s with score := s.score - 1, risks := s.risks ++ [.annualNegative y] }
  else s

/-- Block 4 of `_generate_signal` (short-term-overheat factor): the if
on `result.month_1_return`. -/
def monthStep (m : ℚ) (s : ScoreState) : ScoreState :=
  if m > 15 then
    { s with score := s.score - 1, risks := s.risks ++ [.monthOverheat m] }
  else s

/-- `_generate_signal` before the final tier mapping: the four factor
blocks run in program order on the fresh accumulator. -/
def generateSignalState (t : TrendStatus) (p y m : ℚ) : ScoreState :=
  monthStep m (annualStep y (pullbackStep p (trendStep t initScore)))

/-- The final if/elif chain of `_generate_signal`, mapping the total
score to a `BuySignal` tier. -/
def signalOf (score : ℤ) : BuySignal :=
  if score ≥ 4 then .STRONG_BUY
  else if score ≥ 2 then .BUY
  else if score ≥ 0 then .HOLD
  else if score ≥ -2 then .WAIT
  else if score ≥ -4 then .SELL
  else .STRONG_SELL

/-- `_generate_operation_advice`, entry-timing branch. -/
def entryTimingOf (sig : BuySignal) (p ma5 : ℚ) : EntryTiming :=
  if sig = .STRONG_BUY ∨ sig = .BUY then
    if p < 0 then .buyNowAddOnPullback else .waitPullbackToMa5 ma5
  else if sig = .HOLD then .holdAndWatch
  else .notRecommended

/-- `_generate_operation_advice`, stop-loss branch: `ma20 * 0.92` when
`ma20 > 0`, else the field keeps its default. -/
def stopLossOf (ma20 : ℚ) : Option ℚ :=
  if ma20 > 0 then some (ma20 * (92 / 100)) else none

/-- `_generate_operation_advice`, target-return branch. -/
def targetReturnOf (sig : BuySignal) (y : ℚ) : TargetReturn :=
  if sig = .STRONG_BUY ∨ sig = .BUY then
    if y > 15 then .fifteenTo25 else .tenTo15
  else .noTarget

/-- The `performance` dict handed to `analyze` (`None` stands for a
missing / empty dict; each field defaults to `0` via `.get(key, 0)` when
only some keys are present, which we embed as the full record). -/
structure Performance where
  week_1 : ℚ
  month_1 : ℚ
  month_3 : ℚ
  month_6 : ℚ
  year_1 : ℚ
deriving DecidableEq, Repr

/-- `FundTrendAnalyzer.analyze` on a non-empty date-sorted nav column:
moving averages, trend, pullback, performance copy, signal, advice. -/
def analyzeNonEmpty (navs : List ℚ) (code name : String)
    (performance : Option Performance) : FundAnalysisResult :=
  let ma5 := lastRow (rollingMean 5 navs)
  let ma10 := lastRow (rollingMean 10 navs)
  let ma20 := lastRow (rollingMean 20 navs)
  let ma60 := lastRow (rollingMean 60 navs)
  let nav := lastRow navs
  let tr := classifyTrend ma5 ma10 ma20 nav
  let p5 := pullbackPct nav ma5
  let p20 := pullbackPct nav ma20
  let w1 := (performance.map Performance.week_1).getD 0
  let m1 := (performance.map Performance.month_1).getD 0
  let m3 := (performance.map Performance.month_3).getD 0
  let m6 := (performance.map Performance.month_6).getD 0
  let y1 := (performance.map Performance.year_1).getD 0
  let st := generateSignalState tr.1 p5 y1 m1
  let sig := signalOf st.score
  { code := code
    name := name
    trend_status := tr.1
    trend_strength := tr.2
    ma5 := ma5
    ma10 := ma10
    ma20 := ma20
    ma60 := ma60
    current_nav := nav
    pullback_from_ma5 := p5
    pullback_from_ma20 := p20
    pullback_status := pullbackStatusOf p5
    week_1_return := w1
    month_1_return := m1
    month_3_return := m3
    month_6_return := m6
    year_1_return := y1
    buy_signal := sig
    signal_score := st.score
    signal_reasons := st.reasons
    risk_factors := st.risks
    entry_timing := entryTimingOf sig p5 ma5
    stop_loss := stopLossOf ma20
    target_return := targetReturnOf sig y1 }

/-- `FundTrendAnalyzer.analyze`: `none` stands for `df is None`, and the
empty list for an empty frame; both take the guard branch that returns
the dataclass-default result at once. -/
def analyze (navs : Option (List ℚ)) (code name : String)
    (performance : Option Performance) : FundAnalysisResult :=
  match navs with
  | none => mkDefaultResult code name
  | some l =>
    if l = [] then mkDefaultResult code name
    else analyzeNonEmpty l code name performance

/-- The metadata dict returned by `fetcher.get_fund_info` when truthy;
`nameOpt` is the optional `name` key (`info.get('name', code)` falls back
to the code). -/
structure FundInfo where
  nameOpt : Option String
deriving DecidableEq, Repr

/-- What one call of `process_single_fund` observes from the fetcher for
a given code: an exception somewhere in the body (`throws`), a falsy
`get_fund_info` (`noInfo`), or the fetched info, nav frame and
performance dict. -/
inductive FetchOutcome
  | throws
  | noInfo
  | ok (info : FundInfo) (navs : Option (List ℚ)) (perf : Option Performance)
deriving DecidableEq, Repr

/-- `FundAnalysisPipeline.process_single_fund`: the whole body is inside
`try/except`, so a raised exception is logged and turned into `None`;
missing info and a `None`/empty nav frame also return `None`; otherwise
the analyzer runs on the fetched data. -/
def processSingleFund (env : String → FetchOutcome) (code : String) :
    Option FundAnalysisResult :=
  match env code with
  | .throws => none
  | .noInfo => none
  | .ok info navs perf =>
    match navs with
    | none => none
    | some l =>
      if l = [] then none
      else some (analyzeNonEmpty l code (info.nameOpt.getD code) perf)

/-- The fan-in loop of `FundAnalysisPipeline.run`: futures are drained
with `as_completed`, so results arrive in an arbitrary completion order
(a permutation of the submitted codes); a truthy result is appended, a
`None` or a raised exception is skipped. -/
def runPipeline (env : String → FetchOutcome) (completionOrder : List String) :
    List FundAnalysisResult :=
  completionOrder.filterMap (processSingleFund env)

/-- `insertDesc x l` places `x` before the first element of `l` whose
score is strictly below it: the insertion step of a stable descending
sort by `signal_score`. -/
def insertDesc (x : FundAnalysisResult) :
    List FundAnalysisResult → List FundAnalysisResult
  | [] => [x]
  | y :: ys =>
    if y.signal_score ≤ x.signal_score then x :: y :: ys
    else y :: insertDesc x ys

/-- `sorted(results, key=lambda x: x.signal_score, reverse=True)`: a
stable sort, descending by score, ties keeping their relative input
order — embedded as the extensionally equal stable insertion sort. -/
def sortByScoreDesc : List FundAnalysisResult → List FundAnalysisResult
  | [] => []
  | x :: xs => insertDesc x (sortByScoreDesc xs)

/-- The combined fleet report built by `_send_summary_notification`: the
header counts and the per-fund `format_analysis` blocks in rendered
order (each block is determined by its result record, and records with
distinct codes render distinct blocks); `none` stands for the early
return on an empty result list. -/
structure SummaryReport where
  total : ℕ
  buyCount : ℕ
  waitCount : ℕ
  sellCount : ℕ
  blocks : List FundAnalysisResult
deriving DecidableEq, Repr

/-- `_send_summary_notification`: early return on no results, tier
counts, then the blocks sorted by score descending. -/
def buildSummary (results : List FundAnalysisResult) : Option SummaryReport :=
  if results = [] then none
  else some
    { total := results.length
      buyCount := (results.filter fun r =>
        decide (r.buy_signal = .BUY ∨ r.buy_signal = .STRONG_BUY)).length
      waitCount := (results.filter fun r =>
        decide (r.buy_signal = .WAIT ∨ r.buy_signal = .HOLD)).length
      sellCount := (results.filter fun r =>
        decide (r.buy_signal = .SELL ∨ r.buy_signal = .STRONG_SELL)).length
      blocks := sortByScoreDesc results }

/-! Spec-side definitions used by refinement-style claims. -/

/-- Modelled from the claim text of C3: the flat ordered first-match
chain over the quadruple, equality ties falling through to later
branches. -/
def classifyTrendSpecChain (ma5 ma10 ma20 nav : ℚ) : TrendStatus × ℚ :=
  if ma5 > ma10 ∧ ma10 > ma20 ∧ nav > ma5 then (.STRONG_BULL, 3)
  else if ma5 > ma10 ∧ ma10 > ma20 then (.BULL, 2)
  else if ma5 > ma10 then (.WEAK_BULL, 1)
  else if ma5 < ma10 ∧ ma10 < ma20 ∧ nav < ma5 then (.STRONG_BEAR, -3)
  else if ma5 < ma10 ∧ ma10 < ma20 then (.BEAR, -2)
  else if ma5 < ma10 then (.WEAK_BEAR, -1)
  else (.CONSOLIDATION, 0)

/-- Modelled from claim C1 as amended: the posture bands written as
explicit disjoint intervals, with the buy-window band open at its lower
bound `-3.0` (the code tests `> PULLBACK_BUY_THRESHOLD`, strictly). -/
def pullbackPostureBands (p : ℚ) : String :=
  if 10 < p then "严重偏离均线，追高风险"
  else if 5 < p ∧ p ≤ 10 then "偏离均线，建议等待回调"
  else if 0 < p ∧ p ≤ 5 then "接近均线，可以关注"
  else if -3 < p ∧ p ≤ 0 then "回调至均线附近，买入时机"
  else "大幅回调，关注支撑"

/-- Modelled from the factor table of spec section 4.4: trend factor. -/
def trendFactor : TrendStatus → ℤ
  | .STRONG_BULL => 2
  | .BULL => 2
  | .WEAK_BULL => 1
  | .BEAR => -2
  | .STRONG_BEAR => -2
  | .CONSOLIDATION => 0
  | .WEAK_BEAR => 0

/-- Modelled from the factor table of spec section 4.4: pullback
factor. -/
def pullbackFactor (p : ℚ) : ℤ :=
  if -3 ≤ p ∧ p ≤ 0 then 2
  else if 0 < p ∧ p ≤ 3 then 1
  else if 10 < p then -2
  else if 5 < p then -1
  else 0

/-- Modelled from the factor table of spec section 4.4: annual-return
factor. -/
def annualFactor (y : ℚ) : ℤ :=
  if 20 < y then 2
  else if 10 < y then 1
  else if y < 0 then -1
  else 0

/-- Modelled from the factor table of spec section 4.4: one-month
overheat factor. -/
def monthFactor (m : ℚ) : ℤ :=
  if 15 < m then -1 else 0

/-! Helper lemmas shared by several claims. -/

theorem trendStep_score (t : TrendStatus) (s : ScoreState) :
    (trendStep t s).score = s.score + trendFactor t := by
  cases t <;> simp [trendStep, trendFactor] <;> omega

theorem pullbackStep_score (p : ℚ) (s : ScoreState) :
    (pullbackStep p s).score = s.score + pullbackFactor p := by
  unfold pullbackStep pullbackFactor PULLBACK_BUY_THRESHOLD CHASE_HIGH_THRESHOLD
  split_ifs <;> simp_all <;> linarith

theorem annualStep_score (y : ℚ) (s : ScoreState) :
    (annualStep y s).score = s.score + annualFactor y := by
  unfold annualStep annualFactor
  split_ifs <;> simp_all <;> linarith

theorem monthStep_score (m : ℚ) (s : ScoreState) :
    (monthStep m s).score = s.score + monthFactor m := by
  unfold monthStep monthFactor
  split_ifs <;> simp <;> omega

theorem score_decomposition (t : TrendStatus) (p y m : ℚ) :
    (generateSignalState t p y m).score =
      trendFactor t + pullbackFactor p + annualFactor y + monthFactor m := by
  unfold generateSignalState
  rw [monthStep_score, annualStep_score, pullbackStep_score, trendStep_score]
  simp [initScore]

/-! Claim theorems. -/

/-- C3 (confirmed): the trend classifier is a total deterministic
function of the quadruple, equal everywhere to the ordered first-match
threshold chain of the claim, ties falling through to later branches. -/
theorem C3_trend_classifier_first_match_chain :
    ∀ ma5 ma10 ma20 nav : ℚ,
      classifyTrend ma5 ma10 ma20 nav = classifyTrendSpecChain ma5 ma10 ma20 nav := by
  intro a b c d
  unfold classifyTrend classifyTrendSpecChain
  split_ifs <;> simp_all <;> linarith

/-- C1 (corrected, counterexample): at `pullback_from_ma5` exactly
`-3.0` the code produces the deep-pullback posture, not the buy-window
posture the claim states: the code guard is `> PULLBACK_BUY_THRESHOLD`,
strict. -/
theorem C1_pullback_boundary_counterexample :
    pullbackStatusOf (-3) = "大幅回调，关注支撑" ∧
    pullbackStatusOf (-3) ≠ "回调至均线附近，买入时机" := by
  constructor <;> decide

/-- C1 (amended): the posture is the fixed top-down threshold chain on
`pullback_from_ma5` with both boundaries exclusive: at exactly `-3.0`
the posture is the deep-pullback one (lower boundary exclusive at
`> -3.0`), and at exactly `10.0` it is the deviated-wait one (upper
boundary exclusive at `> 10.0`). -/
theorem C1_pullback_posture_bands_amended :
    (∀ p : ℚ, pullbackStatusOf p = pullbackPostureBands p) ∧
    pullbackStatusOf 10 = "偏离均线，建议等待回调" ∧
    pullbackStatusOf (-3) = "大幅回调，关注支撑" := by
  refine ⟨fun p => ?_, by decide, by decide⟩
  unfold pullbackStatusOf pullbackPostureBands CHASE_HIGH_THRESHOLD PULLBACK_BUY_THRESHOLD
  split_ifs <;> first | rfl | (exfalso; simp_all <;> linarith)

/-- C2 (corrected, counterexample): an analysis whose trend state is
WEAK_BEAR does get a trend reason string: the scorer's else-branch
appends the consolidation text for WEAK_BEAR as well, so the reason list
is not empty as the claim states. -/
theorem C2_weak_bear_counterexample :
    (generateSignalState .WEAK_BEAR 4 0 0).score = 0 ∧
    (generateSignalState .WEAK_BEAR 4 0 0).reasons = [.consolidation] ∧
    (generateSignalState .WEAK_BEAR 4 0 0).reasons ≠ [] := by
  refine ⟨by decide, by decide, by decide⟩

/-- C2 (amended): for the WEAK_BEAR trend state the scorer adds 0 to the
score, appends exactly one reason string — the consolidation text, the
same one CONSOLIDATION gets — and appends no risk string. -/
theorem C2_weak_bear_amended :
    ∀ s : ScoreState,
      (trendStep .WEAK_BEAR s).score = s.score ∧
      (trendStep .WEAK_BEAR s).reasons = s.reasons ++ [.consolidation] ∧
      (trendStep .WEAK_BEAR s).risks = s.risks := by
  intro s
  refine ⟨?_, ?_, ?_⟩ <;> simp [trendStep]

/-- C4 (confirmed): the signal score is the sum of the four independent
factor contributions of the spec table, and the stated scenario (trend
BULL, pullback -1.0, annual 25, monthly 5) scores 2 + 2 + 2 = 6 and maps
to STRONG_BUY. -/
theorem C4_score_sum_of_factors :
    (∀ (t : TrendStatus) (p y m : ℚ),
      (generateSignalState t p y m).score =
        trendFactor t + pullbackFactor p + annualFactor y + monthFactor m) ∧
    (generateSignalState .BULL (-1) 25 5).score = 6 ∧
    signalOf (generateSignalState .BULL (-1) 25 5).score = .STRONG_BUY := by
  refine ⟨score_decomposition, by decide, by decide⟩

/-- C5 (confirmed): the score-to-tier mapping partitions the integers
into the six stated contiguous bands; every integer score maps to
exactly one tier. -/
theorem C5_score_tier_partition :
    ∀ s : ℤ,
      (signalOf s = .STRONG_BUY ↔ 4 ≤ s) ∧
      (signalOf s = .BUY ↔ 2 ≤ s ∧ s < 4) ∧
      (signalOf s = .HOLD ↔ 0 ≤ s ∧ s < 2) ∧
      (signalOf s = .WAIT ↔ -2 ≤ s ∧ s < 0) ∧
      (signalOf s = .SELL ↔ -4 ≤ s ∧ s < -2) ∧
      (signalOf s = .STRONG_SELL ↔ s < -4) := by
  intro s
  unfold signalOf
  split_ifs <;> simp_all <;> omega

/-- C10 (confirmed): each factor block moves the score by a bounded
amount — trend and pullback within [-2, 2], annual within [-1, 2],
monthly within [-1, 0] — and the total signal score always lies in
[-6, 6]. -/
theorem C10_signal_score_bounds :
    ∀ (t : TrendStatus) (p y m : ℚ) (s : ScoreState),
      (-2 ≤ (trendStep t s).score - s.score ∧ (trendStep t s).score - s.score ≤ 2) ∧
      (-2 ≤ (pullbackStep p s).score - s.score ∧ (pullbackStep p s).score - s.score ≤ 2) ∧
      (-1 ≤ (annualStep y s).score - s.score ∧ (annualStep y s).score - s.score ≤ 2) ∧
      (-1 ≤ (monthStep m s).score - s.score ∧ (monthStep m s).score - s.score ≤ 0) ∧
      (-6 ≤ (generateSignalState t p y m).score ∧ (generateSignalState t p y m).score ≤ 6) := by
  intro t p y m s
  have ht : -2 ≤ trendFactor t ∧ trendFactor t ≤ 2 := by
    cases t <;> simp [trendFactor]
  have hp : -2 ≤ pullbackFactor p ∧ pullbackFactor p ≤ 2 := by
    unfold pullbackFactor; split_ifs <;> omega
  have hy : -1 ≤ annualFactor y ∧ annualFactor y ≤ 2 := by
    unfold annualFactor; split_ifs <;> omega
  have hm : -1 ≤ monthFactor m ∧ monthFactor m ≤ 0 := by
    unfold monthFactor; split_ifs <;> omega
  refine ⟨?_, ?_, ?_, ?_, ?_⟩
  · rw [trendStep_score]; omega
  · rw [pullbackStep_score]; omega
  · rw [annualStep_score]; omega
  · rw [monthStep_score]; omega
  · rw [score_decomposition]; omega

/-- Mapping a function over `List.range n` ends at the image of
`n - 1`. -/
theorem getLast?_map_range {α : Type} (f : ℕ → α) (n : ℕ) (h : n ≠ 0) :
    ((List.range n).map f).getLast? = some (f (n - 1)) := by
  rw [List.getLast?_eq_getElem?]
  simp only [List.length_map, List.length_range, List.getElem?_map]
  rw [List.getElem?_range (by omega)]
  rfl

/-- The rolling window aggregated at the last row is the trailing window
of the whole series. -/
theorem windowSlice_last (k : ℕ) (navs : List ℚ) (h : navs ≠ []) :
    windowSlice k (navs.length - 1) navs = navs.drop (navs.length - k) := by
  unfold windowSlice
  have hn : navs.length ≠ 0 := fun h0 => h (List.length_eq_zero.mp h0)
  have h1 : navs.length - 1 + 1 = navs.length := by omega
  rw [h1, List.take_length]

/-- The last row of one rolling-mean column is the mean of the trailing
window of the series. -/
theorem rollingMean_getLast (k : ℕ) (navs : List ℚ) (h : navs ≠ []) :
    (rollingMean k navs).getLast? = some (mean (navs.drop (navs.length - k))) := by
  unfold rollingMean
  have hn : navs.length ≠ 0 := fun h0 => h (List.length_eq_zero.mp h0)
  rw [getLast?_map_range _ _ hn, windowSlice_last k navs h]

/-- Selects the moving-average field of the given window length (5, 10,
20 or 60) from a result record. -/
def maField (k : ℕ) (r : FundAnalysisResult) : ℚ :=
  if k = 5 then r.ma5
  else if k = 10 then r.ma10
  else if k = 20 then r.ma20
  else r.ma60

/-- C6 (confirmed): on a non-empty series the rolling-mean columns are
total (the last row is defined, nothing raises), and for each window
k in {5, 10, 20, 60} the ma-k value at the last row — the ma-k field of
the analysis result — is the arithmetic mean of the last min(k, n) nav
values of the series. -/
theorem C6_moving_average_trailing_mean (navs : List ℚ) (h : navs ≠ [])
    (k : ℕ) (hk : k = 5 ∨ k = 10 ∨ k = 20 ∨ k = 60)
    (code name : String) (perf : Option Performance) :
    (rollingMean k navs).getLast? = some (mean (navs.drop (navs.length - k))) ∧
    (navs.drop (navs.length - k)).length = min k navs.length ∧
    maField k (analyzeNonEmpty navs code name perf) =
      mean (navs.drop (navs.length - k)) := by
  refine ⟨rollingMean_getLast k navs h, ?_, ?_⟩
  · rw [List.length_drop]; omega
  · rcases hk with rfl | rfl | rfl | rfl <;>
      simp [maField, analyzeNonEmpty, lastRow, rollingMean_getLast _ navs h]

/-- C6 witness: the theorem applied to the concrete series [1, 2] with
window 5. -/
theorem C6_moving_average_trailing_mean_witness :
    (([1, 2] : List ℚ) ≠ [] ∧ (5 = 5 ∨ 5 = 10 ∨ 5 = 20 ∨ 5 = 60)) ∧
    ((rollingMean 5 [1, 2]).getLast? =
        some (mean (([1, 2] : List ℚ).drop (([1, 2] : List ℚ).length - 5))) ∧
      (([1, 2] : List ℚ).drop (([1, 2] : List ℚ).length - 5)).length =
        min 5 ([1, 2] : List ℚ).length ∧
      maField 5 (analyzeNonEmpty [1, 2] "000001" "nm" none) =
        mean (([1, 2] : List ℚ).drop (([1, 2] : List ℚ).length - 5))) :=
  ⟨⟨by decide, Or.inl rfl⟩,
    C6_moving_average_trailing_mean [1, 2] (by decide) 5 (Or.inl rfl) "000001" "nm" none⟩

/-- The entry-timing branch of `_generate_operation_advice` always sets
one of its four texts, never the dataclass default. -/
theorem entryTimingOf_ne_empty (sig : BuySignal) (p ma5 : ℚ) :
    entryTimingOf sig p ma5 ≠ .empty := by
  unfold entryTimingOf
  split_ifs <;> simp

/-- C7 (corrected, counterexample): on an empty or absent nav series the
analyzer does not fail at all — no exception, no error value: it returns
the plain dataclass-default result, whose recommendation is WAIT. -/
theorem C7_empty_series_counterexample :
    analyze (some []) "000001" "" none = mkDefaultResult "000001" "" ∧
    analyze none "000001" "" none = mkDefaultResult "000001" "" ∧
    (analyze (some []) "000001" "" none).buy_signal = .WAIT := by
  refine ⟨by decide, by decide, by decide⟩

/-- C7 (amended): the analysis short-circuits to the dataclass-default
result exactly when the series is empty or absent — it runs the full
pipeline on every non-empty series and never returns the default result
for one. -/
theorem C7_empty_series_amended (navs : List ℚ) (h : navs ≠ [])
    (code name : String) (perf : Option Performance) :
    analyze (some navs) code name perf = analyzeNonEmpty navs code name perf ∧
    analyze (some navs) code name perf ≠ mkDefaultResult code name ∧
    analyze none code name perf = mkDefaultResult code name ∧
    analyze (some []) code name perf = mkDefaultResult code name := by
  have heq : analyze (some navs) code name perf = analyzeNonEmpty navs code name perf := by
    simp [analyze, h]
  refine ⟨heq, ?_, rfl, by simp [analyze]⟩
  intro hc
  rw [heq] at hc
  have h2 := congrArg FundAnalysisResult.entry_timing hc
  simp [analyzeNonEmpty, mkDefaultResult, entryTimingOf_ne_empty] at h2

/-- C7 witness: the amended theorem applied to the one-point series. -/
theorem C7_empty_series_amended_witness :
    (([1] : List ℚ) ≠ []) ∧
    (analyze (some [1]) "000001" "nm" none = analyzeNonEmpty [1] "000001" "nm" none ∧
      analyze (some [1]) "000001" "nm" none ≠ mkDefaultResult "000001" "nm" ∧
      analyze none "000001" "nm" none = mkDefaultResult "000001" "nm" ∧
      analyze (some []) "000001" "nm" none = mkDefaultResult "000001" "nm") :=
  ⟨by decide, C7_empty_series_amended [1] (by decide) "000001" "nm" none⟩

/-- The number of results a `filterMap` keeps is the input length minus
the number of inputs the function maps to `none`. -/
theorem length_filterMap_eq_sub {α β : Type} (f : α → Option β) (l : List α) :
    (l.filterMap f).length =
      l.length - (l.filter fun x => (f x).isNone).length := by
  induction l with
  | nil => rfl
  | cons x xs ih =>
    have hle := List.length_filter_le (fun x => (f x).isNone) xs
    cases hf : f x <;>
      simp [List.filterMap_cons, List.filter_cons, hf] <;> omega

/-- C8 (confirmed): a fleet run over any completion order of the
submitted codes is total (nothing escapes the fan-in loop) and returns
exactly the successful results: its length is the number of codes minus
the number of failing codes, and every failure mode — a worker
exception, unresolvable metadata, an absent nav frame, an empty nav
frame — makes exactly that fund return `none` and be excluded. -/
theorem C8_fleet_partial_failure (env : String → FetchOutcome)
    (codes completionOrder : List String) (hperm : completionOrder.Perm codes) :
    (runPipeline env completionOrder).length =
      codes.length -
        (codes.filter fun c => (processSingleFund env c).isNone).length ∧
    (∀ c, env c = .throws → processSingleFund env c = none) ∧
    (∀ c, env c = .noInfo → processSingleFund env c = none) ∧
    (∀ c info perf, env c = .ok info none perf → processSingleFund env c = none) ∧
    (∀ c info perf, env c = .ok info (some []) perf → processSingleFund env c = none) := by
  refine ⟨?_, ?_, ?_, ?_, ?_⟩
  · have h1 : (runPipeline env completionOrder).Perm (runPipeline env codes) :=
      hperm.filterMap (processSingleFund env)
    rw [h1.length_eq]
    exact length_filterMap_eq_sub (processSingleFund env) codes
  · intro c hc; simp [processSingleFund, hc]
  · intro c hc; simp [processSingleFund, hc]
  · intro c info perf hc; simp [processSingleFund, hc]
  · intro c info perf hc; simp [processSingleFund, hc]

/-- Concrete two-fund fetch environment for the C8 witness: fund A
raises inside its worker, fund B fetches a one-point series. -/
def witnessEnv : String → FetchOutcome := fun c =>
  if c = "A" then .throws else .ok ⟨none⟩ (some [1]) none

/-- C8 witness: the theorem applied to the two-fund environment with the
completion order reversing the submission order. -/
theorem C8_fleet_partial_failure_witness :
    (["B", "A"] : List String).Perm ["A", "B"] ∧
    ((runPipeline witnessEnv ["B", "A"]).length =
      (["A", "B"] : List String).length -
        ((["A", "B"] : List String).filter fun c =>
          (processSingleFund witnessEnv c).isNone).length ∧
    (∀ c, witnessEnv c = .throws → processSingleFund witnessEnv c = none) ∧
    (∀ c, witnessEnv c = .noInfo → processSingleFund witnessEnv c = none) ∧
    (∀ c info perf, witnessEnv c = .ok info none perf →
      processSingleFund witnessEnv c = none) ∧
    (∀ c info perf, witnessEnv c = .ok info (some []) perf →
      processSingleFund witnessEnv c = none)) :=
  ⟨List.Perm.swap "A" "B" [],
    C8_fleet_partial_failure witnessEnv ["A", "B"] ["B", "A"]
      (List.Perm.swap "A" "B" [])⟩

/-- Inserting into the stable descending sort is a permutation of
consing. -/
theorem insertDesc_perm (x : FundAnalysisResult) (l : List FundAnalysisResult) :
    (insertDesc x l).Perm (x :: l) := by
  induction l with
  | nil => rfl
  | cons y ys ih =>
    unfold insertDesc
    split_ifs
    · rfl
    · exact (ih.cons y).trans (List.Perm.swap x y ys)

/-- The stable descending sort permutes its input. -/
theorem sortByScoreDesc_perm (l : List FundAnalysisResult) :
    (sortByScoreDesc l).Perm l := by
  induction l with
  | nil => rfl
  | cons x xs ih => exact (insertDesc_perm x _).trans (ih.cons x)

/-- Insertion preserves the descending-by-score invariant. -/
theorem insertDesc_pairwise (x : FundAnalysisResult) (l : List FundAnalysisResult)
    (hl : l.Pairwise fun a b => b.signal_score ≤ a.signal_score) :
    (insertDesc x l).Pairwise fun a b => b.signal_score ≤ a.signal_score := by
  induction l with
  | nil => simp [insertDesc]
  | cons y ys ih =>
    rcases List.pairwise_cons.mp hl with ⟨hy, hys⟩
    unfold insertDesc
    split_ifs with h
    · refine List.pairwise_cons.mpr ⟨?_, hl⟩
      intro z hz
      rcases List.mem_cons.mp hz with rfl | hz
      · exact h
      · exact le_trans (hy z hz) h
    · refine List.pairwise_cons.mpr ⟨?_, ih hys⟩
      intro z hz
      rcases List.mem_cons.mp ((insertDesc_perm x ys).mem_iff.mp hz) with rfl | hz
      · exact le_of_lt (lt_of_not_ge h)
      · exact hy z hz

/-- The output of the stable descending sort is descending by score. -/
theorem sortByScoreDesc_pairwise (l : List FundAnalysisResult) :
    (sortByScoreDesc l).Pairwise fun a b => b.signal_score ≤ a.signal_score := by
  induction l with
  | nil => simp [sortByScoreDesc]
  | cons x xs ih => exact insertDesc_pairwise x _ ih

/-- C9 (corrected, counterexample): two successful results with tied
scores and different codes render different combined reports in the two
completion orders — the stable sort keeps ties in arrival order, so the
report is not identical across completion races. -/
theorem C9_tied_scores_counterexample :
    ([{ mkDefaultResult "000001" "" with signal_score := 1 },
      { mkDefaultResult "000002" "" with signal_score := 1 }] :
        List FundAnalysisResult).Perm
      [{ mkDefaultResult "000002" "" with signal_score := 1 },
       { mkDefaultResult "000001" "" with signal_score := 1 }] ∧
    buildSummary
      [{ mkDefaultResult "000001" "" with signal_score := 1 },
       { mkDefaultResult "000002" "" with signal_score := 1 }] ≠
    buildSummary
      [{ mkDefaultResult "000002" "" with signal_score := 1 },
       { mkDefaultResult "000001" "" with signal_score := 1 }] := by
  constructor
  · exact List.Perm.swap _ _ []
  · decide

/-- C9 (amended): whenever no two successful results share a
signal_score, the combined fleet report is identical across completion
orders: any two permutations of the same results build the same header
counts and the same sorted block list. -/
theorem C9_summary_order_independent_amended
    (l₁ l₂ : List FundAnalysisResult) (hperm : l₁.Perm l₂)
    (hdist : l₁.Pairwise fun a b => a.signal_score ≠ b.signal_score) :
    buildSummary l₁ = buildSummary l₂ := by
  have hsymm : ∀ {x y : FundAnalysisResult},
      x.signal_score ≠ y.signal_score → y.signal_score ≠ x.signal_score :=
    fun h => h.symm
  have hblocks : sortByScoreDesc l₁ = sortByScoreDesc l₂ := by
    have hp : (sortByScoreDesc l₁).Perm (sortByScoreDesc l₂) :=
      (sortByScoreDesc_perm l₁).trans (hperm.trans (sortByScoreDesc_perm l₂).symm)
    have hd1 : (sortByScoreDesc l₁).Pairwise
        fun a b => a.signal_score ≠ b.signal_score :=
      ((sortByScoreDesc_perm l₁).pairwise_iff hsymm).mpr hdist
    have hd2 : (sortByScoreDesc l₂).Pairwise
        fun a b => a.signal_score ≠ b.signal_score :=
      ((sortByScoreDesc_perm l₂).pairwise_iff hsymm).mpr
        ((hperm.pairwise_iff hsymm).mp hdist)
    have hs1 : (sortByScoreDesc l₁).Pairwise
        fun a b => b.signal_score < a.signal_score :=
      ((sortByScoreDesc_pairwise l₁).and hd1).imp
        fun h => lt_of_le_of_ne h.1 (Ne.symm h.2)
    have hs2 : (sortByScoreDesc l₂).Pairwise
        fun a b => b.signal_score < a.signal_score :=
      ((sortByScoreDesc_pairwise l₂).and hd2).imp
        fun h => lt_of_le_of_ne h.1 (Ne.symm h.2)
    haveI : IsAntisymm FundAnalysisResult
        (fun a b => b.signal_score < a.signal_score) :=
      ⟨fun _ _ h1 h2 => (lt_asymm h1 h2).elim⟩
    exact List.eq_of_perm_of_sorted hp hs1 hs2
  by_cases h1 : l₁ = []
  · subst h1
    rw [hperm.symm.eq_nil]
  · have h2 : l₂ ≠ [] := fun he => h1 (by rw [he] at hperm; exact hperm.eq_nil)
    unfold buildSummary
    rw [if_neg h1, if_neg h2]
    simp only [Option.some.injEq, SummaryReport.mk.injEq]
    exact ⟨hperm.length_eq, (hperm.filter _).length_eq,
      (hperm.filter _).length_eq, (hperm.filter _).length_eq, hblocks⟩

/-- First of the two distinct-score results used by the C9 witness. -/
def wHigh : FundAnalysisResult := { mkDefaultResult "000001" "" with signal_score := 2 }

/-- Second of the two distinct-score results used by the C9 witness. -/
def wLow : FundAnalysisResult := { mkDefaultResult "000002" "" with signal_score := 1 }

/-- C9 witness: the amended theorem applied to two distinct-score
results arriving in the two possible completion orders. -/
theorem C9_summary_order_independent_amended_witness :
    (([wHigh, wLow] : List FundAnalysisResult).Perm [wLow, wHigh] ∧
      ([wHigh, wLow] : List FundAnalysisResult).Pairwise
        (fun a b => a.signal_score ≠ b.signal_score)) ∧
    buildSummary [wHigh, wLow] = buildSummary [wLow, wHigh] :=
  ⟨⟨List.Perm.swap wLow wHigh [], by simp [List.pairwise_cons, wHigh, wLow, mkDefaultResult]⟩,
    C9_summary_order_independent_amended [wHigh, wLow] [wLow, wHigh]
      (List.Perm.swap wLow wHigh [])
      (by simp [List.pairwise_cons, wHigh, wLow, mkDefaultResult])⟩

end FundAnalysis

